import Mathlib

/-!
Verification of the AAA CLI actioner (`CLI/actioner/sonic_cli_aaa.py`).

The actioner is a stateless mapping from parsed CLI arguments to a single
REST call (PATCH / DELETE / GET) against a configuration store, plus a
printed message and an integer exit status.  We embed it shallowly:

* the REST transport (`ApiClient` in the Python source) becomes a record of
  response functions, one per verb, so a handler is a pure function of the
  client and its string arguments;
* each handler returns an `HResult`: the list of REST calls it issued, the
  messages it printed, the render invocations it made, and its status code;
* the GET payload (a JSON dictionary in Python) becomes `AaaContent`, a
  record of `Option` fields — `none` models an absent dictionary key, which
  is all the Python code ever distinguishes.
-/

namespace SonicAaa

/-- A REST response as the handlers observe it: `ok`, an error message, and
(for GET) an optional content payload. -/
structure AuthConfigContent where
  authenticationMethod : Option (List String)
  failthrough : Option Bool
  fallback : Option Bool
  debug : Option Bool
  trace : Option Bool
deriving DecidableEq

/-- The part of a GET payload the actioner reads: the `authentication`
branch's config and the two method lists of the other branches.  A branch
absent from the JSON response is modelled by its fields being `none`. -/
structure AaaContent where
  authentication : AuthConfigContent
  authorizationMethod : Option (List String)
  accountingMethod : Option (List String)
deriving DecidableEq

/-- Transport response: success flag, error message, optional GET content.
`content = none` models a falsy (absent or empty) payload. -/
structure Resp where
  ok : Bool
  errorMessage : String
  content : Option AaaContent
deriving DecidableEq

/-- The value slot of a PATCH body: a boolean flag or a method list. -/
inductive BodyVal where
  | bool (b : Bool)
  | strs (l : List String)
deriving DecidableEq

/-- A PATCH body of the fixed Python shape
`(outerKey : (fieldKey : val))` — e.g. the outer key
`"openconfig-system:config"` wrapping one qualified field. -/
structure PatchBody where
  outerKey : String
  fieldKey : String
  val : BodyVal
deriving DecidableEq

/-- One REST call issued by a handler, with its path and arguments. -/
inductive RestCall where
  | patch (path : String) (body : PatchBody)
  | delete (path : String)
  | get (path : String) (ignore404 : Bool)
deriving DecidableEq

/-- The transport client: a pure environment assigning a response to each
possible call.  Handlers consult it exactly where the Python code calls
`ApiClient().patch/delete/get`. -/
structure ApiClient where
  patchResp : String → PatchBody → Resp
  deleteResp : String → Resp
  getResp : String → Bool → Resp

/-- The Display Record handed to the renderer: the `authentication` branch
of the flattened AAA data. -/
structure AuthenticationDisplay where
  login : String
  failthrough : String
  fallback : String
  debug : String
  trace : String
deriving DecidableEq

/-- The Display Record handed to the renderer (`aaa_data` in the source). -/
structure AaaData where
  authentication : AuthenticationDisplay
  authorizationLogin : String
  accountingLogin : String
deriving DecidableEq

/-- Everything observable about one handler invocation: REST calls issued
(in order), messages printed, `show_cli_output` invocations made
(template name with the record passed), and the returned status. -/
structure HResult where
  calls : List RestCall
  prints : List String
  renders : List (String × AaaData)
  status : Nat
deriving DecidableEq

/-- `AAA_PATH` from the source. -/
def AAA_PATH : String := "/restconf/data/openconfig-system:system/aaa"

/-- `aaa_path(subpath=None)`: the AAA base path, joined with the sub-path
when one is given (Python truthiness: `None` and `""` both fall through to
the bare base path). -/
def aaa_path (subpath : Option String) : String :=
  match subpath with
  | some s => if s = "" then AAA_PATH else AAA_PATH ++ "/" ++ s
  | none => AAA_PATH

/-- `check_ok(resp)`: the messages printed and the status returned when a
handler finishes with transport response `resp`. -/
def check_ok (resp : Resp) : List String × Nat :=
  if resp.ok then ([], 0) else ([resp.errorMessage], 1)

/-- `option_to_bool(option)`: `"enable"` to `true`, `"disable"` to `false`,
anything else to `none`. -/
def option_to_bool (option : String) : Option Bool :=
  if option = "enable" then some true
  else if option = "disable" then some false
  else none

/-- Python whitespace as used by `str.strip()`. -/
def isPySpace (c : Char) : Bool :=
  c = ' ' || c = '\t' || c = '\n' || c = '\r' || c = '\x0b' || c = '\x0c'

/-- Python `s.strip()`: drop leading and trailing whitespace. -/
def pyStrip (s : String) : String :=
  ⟨((s.data.dropWhile isPySpace).reverse.dropWhile isPySpace).reverse⟩

/-- Python `str(b)` for a boolean. -/
def pyStrBool : Bool → String
  | true => "True"
  | false => "False"

/-- The kept occurrences of one candidate argument in `methods_to_list`:
the Python guard `if m and m.strip():` keeps the ORIGINAL string `m`
whenever `m` is present, non-empty and not whitespace-only. -/
def keepMethod : Option String → List String
  | some s => if s ≠ "" ∧ pyStrip s ≠ "" then [s] else []
  | none => []

/-- `methods_to_list(method1, method2=None)`: the ordered method list built
from up to two candidate arguments. -/
def methods_to_list (method1 : Option String) (method2 : Option String) : List String :=
  keepMethod method1 ++ keepMethod method2

/-- A handler result with no REST call: one printed message and status 1. -/
def localFailure (msg : String) : HResult :=
  { calls := [], prints := [msg], renders := [], status := 1 }

/-- The shared body of the four boolean-attribute PATCH handlers, after the
`"default"` sentinel test: map the option, reject unmapped options, else
PATCH `authentication/config` with the one qualified field set. -/
def patchAuthBool (client : ApiClient) (fieldKey : String) (option : String) : HResult :=
  match option_to_bool option with
  | none => localFailure ("Invalid option: " ++ option)
  | some val =>
    let path := aaa_path (some "authentication/config")
    let body : PatchBody := ⟨"openconfig-system:config", fieldKey, BodyVal.bool val⟩
    let resp := client.patchResp path body
    { calls := [RestCall.patch path body]
      prints := (check_ok resp).1
      renders := []
      status := (check_ok resp).2 }

/-- The shared body of the DELETE handlers: one DELETE at the given
sub-path. -/
def deleteAt (client : ApiClient) (subpath : String) : HResult :=
  let path := aaa_path (some subpath)
  let resp := client.deleteResp path
  { calls := [RestCall.delete path]
    prints := (check_ok resp).1
    renders := []
    status := (check_ok resp).2 }

/-- `delete_openconfig_aaa_aaa_authentication_failthrough`. -/
def delete_openconfig_aaa_aaa_authentication_failthrough (client : ApiClient) : HResult :=
  deleteAt client "authentication/config/openconfig-system-ext:failthrough"

/-- `patch_openconfig_aaa_aaa_authentication_failthrough(option)`. -/
def patch_openconfig_aaa_aaa_authentication_failthrough (client : ApiClient) (option : String) : HResult :=
  if option = "default" then
    delete_openconfig_aaa_aaa_authentication_failthrough client
  else
    patchAuthBool client "openconfig-system-ext:failthrough" option

/-- `delete_openconfig_aaa_aaa_authentication_fallback`. -/
def delete_openconfig_aaa_aaa_authentication_fallback (client : ApiClient) : HResult :=
  deleteAt client "authentication/config/openconfig-system-ext:fallback"

/-- `patch_openconfig_aaa_aaa_authentication_fallback(option)`. -/
def patch_openconfig_aaa_aaa_authentication_fallback (client : ApiClient) (option : String) : HResult :=
  if option = "default" then
    delete_openconfig_aaa_aaa_authentication_fallback client
  else
    patchAuthBool client "openconfig-system-ext:fallback" option

/-- `delete_openconfig_aaa_aaa_authentication_debug`. -/
def delete_openconfig_aaa_aaa_authentication_debug (client : ApiClient) : HResult :=
  deleteAt client "authentication/config/openconfig-system-ext:debug"

/-- `patch_openconfig_aaa_aaa_authentication_debug(option)`. -/
def patch_openconfig_aaa_aaa_authentication_debug (client : ApiClient) (option : String) : HResult :=
  if option = "default" then
    delete_openconfig_aaa_aaa_authentication_debug client
  else
    patchAuthBool client "openconfig-system-ext:debug" option

/-- `delete_openconfig_aaa_aaa_authentication_trace`. -/
def delete_openconfig_aaa_aaa_authentication_trace (client : ApiClient) : HResult :=
  deleteAt client "authentication/config/openconfig-system-ext:trace"

/-- `patch_openconfig_aaa_aaa_authentication_trace(option)`. -/
def patch_openconfig_aaa_aaa_authentication_trace (client : ApiClient) (option : String) : HResult :=
  if option = "default" then
    delete_openconfig_aaa_aaa_authentication_trace client
  else
    patchAuthBool client "openconfig-system-ext:trace" option

/-- The shared body of the method-list PATCH handlers: build the list, reject
an empty one with the family message, else PATCH `familyPath` with the
family's qualified list field. -/
def patchMethods (client : ApiClient) (familyPath fieldKey msg : String)
    (method1 : String) (method2 : Option String) : HResult :=
  let methods := methods_to_list (some method1) method2
  if methods = [] then
    localFailure msg
  else
    let path := aaa_path (some familyPath)
    let body : PatchBody := ⟨"openconfig-system:config", fieldKey, BodyVal.strs methods⟩
    let resp := client.patchResp path body
    { calls := [RestCall.patch path body]
      prints := (check_ok resp).1
      renders := []
      status := (check_ok resp).2 }

/-- `patch_openconfig_aaa_aaa_authentication_login(method1, method2=None)`. -/
def patch_openconfig_aaa_aaa_authentication_login (client : ApiClient)
    (method1 : String) (method2 : Option String) : HResult :=
  patchMethods client "authentication/config" "authentication-method"
    "At least one authentication method is required" method1 method2

/-- `delete_openconfig_aaa_aaa_authentication_login`. -/
def delete_openconfig_aaa_aaa_authentication_login (client : ApiClient) : HResult :=
  deleteAt client "authentication/config/authentication-method"

/-- `patch_openconfig_aaa_aaa_authorization_login(method1, method2=None)`. -/
def patch_openconfig_aaa_aaa_authorization_login (client : ApiClient)
    (method1 : String) (method2 : Option String) : HResult :=
  patchMethods client "authorization/config" "authorization-method"
    "At least one authorization method is required" method1 method2

/-- `delete_openconfig_aaa_aaa_authorization_login`. -/
def delete_openconfig_aaa_aaa_authorization_login (client : ApiClient) : HResult :=
  deleteAt client "authorization/config/authorization-method"

/-- `delete_openconfig_aaa_aaa_accounting_login`. -/
def delete_openconfig_aaa_aaa_accounting_login (client : ApiClient) : HResult :=
  deleteAt client "accounting/config/accounting-method"

/-- `patch_openconfig_aaa_aaa_accounting_login(method1, method2=None)`:
the `"disable"` sentinel on the first argument delegates to the DELETE
handler before the method list is built. -/
def patch_openconfig_aaa_aaa_accounting_login (client : ApiClient)
    (method1 : String) (method2 : Option String) : HResult :=
  if method1 = "disable" then
    delete_openconfig_aaa_aaa_accounting_login client
  else
    patchMethods client "accounting/config" "accounting-method"
      "At least one accounting method is required" method1 method2

/-- The default Display Record (`aaa_data` literal in the source). -/
def defaultAaaData : AaaData :=
  { authentication :=
      { login := "local (default)"
        failthrough := "False (default)"
        fallback := "False (default)"
        debug := "False (default)"
        trace := "False (default)" }
    authorizationLogin := "local (default)"
    accountingLogin := "disable (default)" }

/-- Overwrite a method-list display field only when the list is present and
non-empty (Python: `if key in config:` then `if methods:`). -/
def mergeMethods (methods : Option (List String)) (dflt : String) : String :=
  match methods with
  | some ms => if ms ≠ [] then String.intercalate "," ms else dflt
  | none => dflt

/-- Overwrite a boolean display field whenever the key is present,
regardless of value (Python: `if key in config:` then `str(...)`). -/
def mergeBool (flag : Option Bool) (dflt : String) : String :=
  match flag with
  | some b => pyStrBool b
  | none => dflt

/-- The Display Record after merging a GET payload over the defaults
(the body of the `if resp.content:` block of `get_openconfig_aaa_aaa`). -/
def mergeAaa (content : Option AaaContent) : AaaData :=
  match content with
  | none => defaultAaaData
  | some data =>
    let ac := data.authentication
    { authentication :=
        { login := mergeMethods ac.authenticationMethod "local (default)"
          failthrough := mergeBool ac.failthrough "False (default)"
          fallback := mergeBool ac.fallback "False (default)"
          debug := mergeBool ac.debug "False (default)"
          trace := mergeBool ac.trace "False (default)" }
      authorizationLogin := mergeMethods data.authorizationMethod "local (default)"
      accountingLogin := mergeMethods data.accountingMethod "disable (default)" }

/-- `get_openconfig_aaa_aaa(template)`: one GET at the AAA root with
`ignore404=True`; on transport failure print the error and return 1,
otherwise render the merged Display Record and return 0. -/
def get_openconfig_aaa_aaa (client : ApiClient) (template : String) : HResult :=
  let resp := client.getResp AAA_PATH true
  if resp.ok then
    { calls := [RestCall.get AAA_PATH true]
      prints := []
      renders := [(template, mergeAaa resp.content)]
      status := 0 }
  else
    { calls := [RestCall.get AAA_PATH true]
      prints := [resp.errorMessage]
      renders := []
      status := 1 }

/-- A transport client whose every response succeeds with no content, used
to instantiate universally quantified theorems at a concrete client. -/
def sampleClient : ApiClient :=
  { patchResp := fun _ _ => ⟨true, "", none⟩
    deleteResp := fun _ => ⟨true, "", none⟩
    getResp := fun _ _ => ⟨true, "", none⟩ }

/-- A transport client whose every response fails with a fixed error
message, used to instantiate theorems about the failure branch. -/
def failClient : ApiClient :=
  { patchResp := fun _ _ => ⟨false, "transport error", none⟩
    deleteResp := fun _ => ⟨false, "transport error", none⟩
    getResp := fun _ _ => ⟨false, "transport error", none⟩ }

/-- A transport client whose GET succeeds with the given content, used to
instantiate theorems about the Get-All handler. -/
def getClient (content : Option AaaContent) : ApiClient :=
  { patchResp := fun _ _ => ⟨true, "", none⟩
    deleteResp := fun _ => ⟨true, "", none⟩
    getResp := fun _ _ => ⟨true, "", content⟩ }

/-- The behaviour C1 ascribes to one boolean Set invocation: exactly one
PATCH to `authentication/config` with the single qualified field set to
`b`, status 0 on transport success, else the transport's error message
printed and status 1. -/
def boolSetCase (client : ApiClient) (result : HResult) (fieldKey : String) (b : Bool) : Prop :=
  result =
    { calls := [RestCall.patch (aaa_path (some "authentication/config"))
        ⟨"openconfig-system:config", fieldKey, BodyVal.bool b⟩]
      prints :=
        if (client.patchResp (aaa_path (some "authentication/config"))
              ⟨"openconfig-system:config", fieldKey, BodyVal.bool b⟩).ok
        then [] else
          [(client.patchResp (aaa_path (some "authentication/config"))
              ⟨"openconfig-system:config", fieldKey, BodyVal.bool b⟩).errorMessage]
      renders := []
      status :=
        if (client.patchResp (aaa_path (some "authentication/config"))
              ⟨"openconfig-system:config", fieldKey, BodyVal.bool b⟩).ok
        then 0 else 1 }

theorem patchAuthBool_spec (client : ApiClient) (fieldKey option : String) (b : Bool)
    (h : option_to_bool option = some b) :
    boolSetCase client (patchAuthBool client fieldKey option) fieldKey b := by
  unfold boolSetCase patchAuthBool
  rw [h]
  cases hok : (client.patchResp (aaa_path (some "authentication/config"))
      ⟨"openconfig-system:config", fieldKey, BodyVal.bool b⟩).ok <;>
    simp [check_ok, hok]

/-- C1: for each boolean attribute (failthrough, fallback, debug, trace)
and each of the options `"enable"` / `"disable"`, the Set handler issues
exactly one PATCH to `authentication/config` whose body sets the single
qualified field to `true` / `false`, returns 0 when the transport reports
success, and prints the transport's error message and returns 1 when it
does not. -/
theorem c1_bool_set_enable_disable (client : ApiClient) :
    boolSetCase client (patch_openconfig_aaa_aaa_authentication_failthrough client "enable")
      "openconfig-system-ext:failthrough" true ∧
    boolSetCase client (patch_openconfig_aaa_aaa_authentication_failthrough client "disable")
      "openconfig-system-ext:failthrough" false ∧
    boolSetCase client (patch_openconfig_aaa_aaa_authentication_fallback client "enable")
      "openconfig-system-ext:fallback" true ∧
    boolSetCase client (patch_openconfig_aaa_aaa_authentication_fallback client "disable")
      "openconfig-system-ext:fallback" false ∧
    boolSetCase client (patch_openconfig_aaa_aaa_authentication_debug client "enable")
      "openconfig-system-ext:debug" true ∧
    boolSetCase client (patch_openconfig_aaa_aaa_authentication_debug client "disable")
      "openconfig-system-ext:debug" false ∧
    boolSetCase client (patch_openconfig_aaa_aaa_authentication_trace client "enable")
      "openconfig-system-ext:trace" true ∧
    boolSetCase client (patch_openconfig_aaa_aaa_authentication_trace client "disable")
      "openconfig-system-ext:trace" false := by
  refine ⟨?_, ?_, ?_, ?_, ?_, ?_, ?_, ?_⟩ <;>
    first
      | (rw [patch_openconfig_aaa_aaa_authentication_failthrough, if_neg (by decide)]
         exact patchAuthBool_spec client _ _ _ rfl)
      | (rw [patch_openconfig_aaa_aaa_authentication_fallback, if_neg (by decide)]
         exact patchAuthBool_spec client _ _ _ rfl)
      | (rw [patch_openconfig_aaa_aaa_authentication_debug, if_neg (by decide)]
         exact patchAuthBool_spec client _ _ _ rfl)
      | (rw [patch_openconfig_aaa_aaa_authentication_trace, if_neg (by decide)]
         exact patchAuthBool_spec client _ _ _ rfl)

/-- C3: for each boolean attribute, the Set handler called with the exact
string `"default"` behaves identically to that attribute's Delete handler,
and the Delete handler issues exactly one DELETE at
`authentication/config/openconfig-system-ext:X` — so no PATCH is ever
issued and the returned status is the Delete handler's. -/
theorem c3_bool_set_default_delegates_to_delete (client : ApiClient) :
    (patch_openconfig_aaa_aaa_authentication_failthrough client "default" =
        delete_openconfig_aaa_aaa_authentication_failthrough client ∧
      (delete_openconfig_aaa_aaa_authentication_failthrough client).calls =
        [RestCall.delete (aaa_path (some "authentication/config/openconfig-system-ext:failthrough"))]) ∧
    (patch_openconfig_aaa_aaa_authentication_fallback client "default" =
        delete_openconfig_aaa_aaa_authentication_fallback client ∧
      (delete_openconfig_aaa_aaa_authentication_fallback client).calls =
        [RestCall.delete (aaa_path (some "authentication/config/openconfig-system-ext:fallback"))]) ∧
    (patch_openconfig_aaa_aaa_authentication_debug client "default" =
        delete_openconfig_aaa_aaa_authentication_debug client ∧
      (delete_openconfig_aaa_aaa_authentication_debug client).calls =
        [RestCall.delete (aaa_path (some "authentication/config/openconfig-system-ext:debug"))]) ∧
    (patch_openconfig_aaa_aaa_authentication_trace client "default" =
        delete_openconfig_aaa_aaa_authentication_trace client ∧
      (delete_openconfig_aaa_aaa_authentication_trace client).calls =
        [RestCall.delete (aaa_path (some "authentication/config/openconfig-system-ext:trace"))]) := by
  refine ⟨⟨?_, ?_⟩, ⟨?_, ?_⟩, ⟨?_, ?_⟩, ⟨?_, ?_⟩⟩ <;>
    simp [patch_openconfig_aaa_aaa_authentication_failthrough,
      patch_openconfig_aaa_aaa_authentication_fallback,
      patch_openconfig_aaa_aaa_authentication_debug,
      patch_openconfig_aaa_aaa_authentication_trace,
      delete_openconfig_aaa_aaa_authentication_failthrough,
      delete_openconfig_aaa_aaa_authentication_fallback,
      delete_openconfig_aaa_aaa_authentication_debug,
      delete_openconfig_aaa_aaa_authentication_trace,
      deleteAt]

/-- C4: the accounting-login Set handler called with first argument
`"disable"` behaves identically to the accounting-login Delete handler —
whatever the optional second argument is — and that Delete handler issues
exactly one DELETE at `accounting/config/accounting-method`, so no PATCH
(in particular none with `accounting-method = [disable]`) is issued. -/
theorem c4_accounting_disable_delegates_to_delete (client : ApiClient) (method2 : Option String) :
    patch_openconfig_aaa_aaa_accounting_login client "disable" method2 =
      delete_openconfig_aaa_aaa_accounting_login client ∧
    (delete_openconfig_aaa_aaa_accounting_login client).calls =
      [RestCall.delete (aaa_path (some "accounting/config/accounting-method"))] := by
  constructor
  · simp [patch_openconfig_aaa_aaa_accounting_login]
  · simp [delete_openconfig_aaa_aaa_accounting_login, deleteAt]

/-- C2: the Get-All handler, given a successful GET whose authentication
config holds `authentication-method = [tacacs+, local]` and a `failthrough`
key with any boolean value, renders a Display Record with
`login = "tacacs+,local"` and `failthrough` the string form of the flag,
all untouched fields keeping their `" (default)"` strings; moreover
method-list fields are overwritten exactly when the list is present and
non-empty, while boolean fields are overwritten on key presence alone. -/
theorem c2_getall_merge_semantics (template : String) (b : Bool) :
    (get_openconfig_aaa_aaa
        (getClient (some ⟨⟨some ["tacacs+", "local"], some b, none, none, none⟩, none, none⟩))
        template).renders =
      [(template,
        { authentication :=
            { login := "tacacs+,local"
              failthrough := pyStrBool b
              fallback := "False (default)"
              debug := "False (default)"
              trace := "False (default)" }
          authorizationLogin := "local (default)"
          accountingLogin := "disable (default)" })] ∧
    (∀ (ms : List String) (dflt : String),
      mergeMethods (some ms) dflt = if ms = [] then dflt else String.intercalate "," ms) ∧
    (∀ dflt : String, mergeMethods none dflt = dflt) ∧
    (∀ (b2 : Bool) (dflt : String), mergeBool (some b2) dflt = pyStrBool b2) ∧
    (∀ dflt : String, mergeBool none dflt = dflt) := by
  refine ⟨rfl, ?_, fun _ => rfl, fun _ _ => rfl, fun _ => rfl⟩
  intro ms dflt
  by_cases h : ms = [] <;> simp [mergeMethods, h]

/-- C5: for each boolean attribute, the Set handler called with an option
that is neither `"enable"` nor `"disable"` nor `"default"` issues no REST
call at all, prints `Invalid option: ` followed by the offending value,
and returns 1; `option_to_bool` maps every such string to `none`. -/
theorem c5_bool_set_invalid_option (client : ApiClient) (w : String)
    (h1 : w ≠ "enable") (h2 : w ≠ "disable") (h3 : w ≠ "default") :
    option_to_bool w = none ∧
    patch_openconfig_aaa_aaa_authentication_failthrough client w =
      { calls := [], prints := ["Invalid option: " ++ w], renders := [], status := 1 } ∧
    patch_openconfig_aaa_aaa_authentication_fallback client w =
      { calls := [], prints := ["Invalid option: " ++ w], renders := [], status := 1 } ∧
    patch_openconfig_aaa_aaa_authentication_debug client w =
      { calls := [], prints := ["Invalid option: " ++ w], renders := [], status := 1 } ∧
    patch_openconfig_aaa_aaa_authentication_trace client w =
      { calls := [], prints := ["Invalid option: " ++ w], renders := [], status := 1 } := by
  have hb : option_to_bool w = none := by simp [option_to_bool, h1, h2]
  refine ⟨hb, ?_, ?_, ?_, ?_⟩
  · rw [patch_openconfig_aaa_aaa_authentication_failthrough, if_neg h3, patchAuthBool, hb]
    rfl
  · rw [patch_openconfig_aaa_aaa_authentication_fallback, if_neg h3, patchAuthBool, hb]
    rfl
  · rw [patch_openconfig_aaa_aaa_authentication_debug, if_neg h3, patchAuthBool, hb]
    rfl
  · rw [patch_openconfig_aaa_aaa_authentication_trace, if_neg h3, patchAuthBool, hb]
    rfl

/-- C5 witness: the option `"garbage"` at a concrete client. -/
theorem c5_bool_set_invalid_option_witness :
    ("garbage" : String) ≠ "enable" ∧ ("garbage" : String) ≠ "disable" ∧
    ("garbage" : String) ≠ "default" ∧
    (option_to_bool "garbage" = none ∧
     patch_openconfig_aaa_aaa_authentication_failthrough sampleClient "garbage" =
       { calls := [], prints := ["Invalid option: garbage"], renders := [], status := 1 } ∧
     patch_openconfig_aaa_aaa_authentication_fallback sampleClient "garbage" =
       { calls := [], prints := ["Invalid option: garbage"], renders := [], status := 1 } ∧
     patch_openconfig_aaa_aaa_authentication_debug sampleClient "garbage" =
       { calls := [], prints := ["Invalid option: garbage"], renders := [], status := 1 } ∧
     patch_openconfig_aaa_aaa_authentication_trace sampleClient "garbage" =
       { calls := [], prints := ["Invalid option: garbage"], renders := [], status := 1 }) :=
  ⟨by decide, by decide, by decide,
    c5_bool_set_invalid_option sampleClient "garbage" (by decide) (by decide) (by decide)⟩

/-- C6: for each of the three method-list families, whenever the built
method list is empty the Set handler issues no REST call, prints the
family-specific `At least one <family> method is required` message, and
returns 1 — hence no empty method list is ever sent to the store. -/
theorem c6_empty_method_list_rejected (client : ApiClient) (method1 : String)
    (method2 : Option String) (h : methods_to_list (some method1) method2 = []) :
    patch_openconfig_aaa_aaa_authentication_login client method1 method2 =
      { calls := [], prints := ["At least one authentication method is required"],
        renders := [], status := 1 } ∧
    patch_openconfig_aaa_aaa_authorization_login client method1 method2 =
      { calls := [], prints := ["At least one authorization method is required"],
        renders := [], status := 1 } ∧
    patch_openconfig_aaa_aaa_accounting_login client method1 method2 =
      { calls := [], prints := ["At least one accounting method is required"],
        renders := [], status := 1 } := by
  have hd : method1 ≠ "disable" := by
    intro he
    subst he
    have h1 : keepMethod (some "disable") = [] :=
      (List.append_eq_nil.mp h).1
    exact absurd h1 (by decide)
  refine ⟨?_, ?_, ?_⟩
  · simp [patch_openconfig_aaa_aaa_authentication_login, patchMethods, h, localFailure]
  · simp [patch_openconfig_aaa_aaa_authorization_login, patchMethods, h, localFailure]
  · rw [patch_openconfig_aaa_aaa_accounting_login, if_neg hd]
    simp [patchMethods, h, localFailure]

/-- C6 witness: an empty first argument and absent second argument at a
concrete client. -/
theorem c6_empty_method_list_rejected_witness :
    methods_to_list (some "") none = [] ∧
    (patch_openconfig_aaa_aaa_authentication_login sampleClient "" none =
      { calls := [], prints := ["At least one authentication method is required"],
        renders := [], status := 1 } ∧
     patch_openconfig_aaa_aaa_authorization_login sampleClient "" none =
      { calls := [], prints := ["At least one authorization method is required"],
        renders := [], status := 1 } ∧
     patch_openconfig_aaa_aaa_accounting_login sampleClient "" none =
      { calls := [], prints := ["At least one accounting method is required"],
        renders := [], status := 1 }) :=
  ⟨by decide, c6_empty_method_list_rejected sampleClient "" none (by decide)⟩

/-- C7: when the GET fails at the transport level the Get-All handler
prints the transport's error message, returns 1 and never renders; when
the GET succeeds it renders exactly once with the merged Display Record,
prints nothing, and returns 0. -/
theorem c7_getall_failure_success (client : ApiClient) (template : String) :
    ((client.getResp AAA_PATH true).ok = false →
      get_openconfig_aaa_aaa client template =
        { calls := [RestCall.get AAA_PATH true]
          prints := [(client.getResp AAA_PATH true).errorMessage]
          renders := []
          status := 1 }) ∧
    ((client.getResp AAA_PATH true).ok = true →
      get_openconfig_aaa_aaa client template =
        { calls := [RestCall.get AAA_PATH true]
          prints := []
          renders := [(template, mergeAaa (client.getResp AAA_PATH true).content)]
          status := 0 }) := by
  constructor <;> intro h <;> simp [get_openconfig_aaa_aaa, h]

/-- C7 witness: a failing client and a succeeding client at concrete
template names. -/
theorem c7_getall_failure_success_witness :
    ((failClient.getResp AAA_PATH true).ok = false ∧
      get_openconfig_aaa_aaa failClient "aaa_show" =
        { calls := [RestCall.get AAA_PATH true], prints := ["transport error"],
          renders := [], status := 1 }) ∧
    ((sampleClient.getResp AAA_PATH true).ok = true ∧
      get_openconfig_aaa_aaa sampleClient "aaa_show" =
        { calls := [RestCall.get AAA_PATH true], prints := []
          renders := [("aaa_show", mergeAaa none)], status := 0 }) :=
  ⟨⟨rfl, (c7_getall_failure_success failClient "aaa_show").1 rfl⟩,
   ⟨rfl, (c7_getall_failure_success sampleClient "aaa_show").2 rfl⟩⟩

theorem keepMethod_eq_filter (m : Option String) :
    keepMethod m = m.toList.filter (fun s => pyStrip s != "") := by
  cases m with
  | none => rfl
  | some s =>
    by_cases h : pyStrip s = ""
    · simp [keepMethod, Option.toList, h, List.filter]
    · have hs0 : s ≠ "" := by
        intro he
        subst he
        exact h rfl
      have hbne : (pyStrip s != "") = true := bne_iff_ne.mpr h
      simp [keepMethod, Option.toList, h, hs0, List.filter, hbne]

/-- C8: the method-list builder keeps, in input order, exactly those
candidates that are non-empty after stripping whitespace, the first
candidate before the second; in particular it sends
`[tacacs+, local]` for those two arguments and `[]` for an empty first
and absent second argument. -/
theorem c8_methods_to_list_contract (m1 m2 : Option String) :
    methods_to_list m1 m2 =
      (m1.toList ++ m2.toList).filter (fun s => pyStrip s != "") ∧
    methods_to_list (some "tacacs+") (some "local") = ["tacacs+", "local"] ∧
    methods_to_list (some "") none = [] := by
  refine ⟨?_, by decide, by decide⟩
  simp [methods_to_list, keepMethod_eq_filter]

/-- C9: the authentication-login and authorization-login Set handlers
recognize no sentinel: any first argument that is non-blank after
stripping — including the strings `default` and `disable` — is sent
verbatim at the head of the PATCHed method list. -/
theorem c9_login_handlers_no_sentinel (client : ApiClient) (v : String)
    (method2 : Option String) (h : pyStrip v ≠ "") :
    methods_to_list (some v) method2 = v :: keepMethod method2 ∧
    (patch_openconfig_aaa_aaa_authentication_login client v method2).calls =
      [RestCall.patch (aaa_path (some "authentication/config"))
        ⟨"openconfig-system:config", "authentication-method",
          BodyVal.strs (v :: keepMethod method2)⟩] ∧
    (patch_openconfig_aaa_aaa_authorization_login client v method2).calls =
      [RestCall.patch (aaa_path (some "authorization/config"))
        ⟨"openconfig-system:config", "authorization-method",
          BodyVal.strs (v :: keepMethod method2)⟩] := by
  have hv : v ≠ "" := by
    intro he
    subst he
    exact h rfl
  have hk : keepMethod (some v) = [v] := by
    simp [keepMethod, hv, h]
  have hlist : methods_to_list (some v) method2 = v :: keepMethod method2 := by
    rw [methods_to_list, hk]
    rfl
  refine ⟨hlist, ?_, ?_⟩
  · simp [patch_openconfig_aaa_aaa_authentication_login, patchMethods, hlist]
  · simp [patch_openconfig_aaa_aaa_authorization_login, patchMethods, hlist]

/-- C9 witness: the first argument `"default"` at a concrete client is
PATCHed verbatim as the method list `[default]`, not delegated. -/
theorem c9_login_handlers_no_sentinel_witness :
    pyStrip "default" ≠ "" ∧
    (methods_to_list (some "default") none = ["default"] ∧
     (patch_openconfig_aaa_aaa_authentication_login sampleClient "default" none).calls =
       [RestCall.patch (aaa_path (some "authentication/config"))
         ⟨"openconfig-system:config", "authentication-method", BodyVal.strs ["default"]⟩] ∧
     (patch_openconfig_aaa_aaa_authorization_login sampleClient "default" none).calls =
       [RestCall.patch (aaa_path (some "authorization/config"))
         ⟨"openconfig-system:config", "authorization-method", BodyVal.strs ["default"]⟩]) :=
  ⟨by decide, c9_login_handlers_no_sentinel sampleClient "default" none (by decide)⟩

/-- C10: the method-list builder strips whitespace only for the emptiness
test and returns the candidate untrimmed: a first argument with
surrounding whitespace is kept (and PATCHed) exactly as given, and its
stripped form is not in the list whenever it differs. -/
theorem c10_builder_preserves_whitespace (client : ApiClient) (s : String)
    (h : pyStrip s ≠ "") :
    methods_to_list (some s) none = [s] ∧
    (patch_openconfig_aaa_aaa_authentication_login client s none).calls =
      [RestCall.patch (aaa_path (some "authentication/config"))
        ⟨"openconfig-system:config", "authentication-method", BodyVal.strs [s]⟩] ∧
    (s ≠ pyStrip s → pyStrip s ∉ methods_to_list (some s) none) := by
  have hv : s ≠ "" := by
    intro he
    subst he
    exact h rfl
  have hlist : methods_to_list (some s) none = [s] := by
    simp [methods_to_list, keepMethod, hv, h]
  refine ⟨hlist, ?_, ?_⟩
  · simp [patch_openconfig_aaa_aaa_authentication_login, patchMethods, hlist]
  · intro hne
    rw [hlist]
    simp only [List.mem_singleton]
    intro he
    exact hne he.symm

/-- C10 witness: the argument `" local "` is kept with its whitespace; the
trimmed form `local` is not in the built list. -/
theorem c10_builder_preserves_whitespace_witness :
    pyStrip " local " ≠ "" ∧ (" local " : String) ≠ pyStrip " local " ∧
    methods_to_list (some " local ") none = [" local "] ∧
    (patch_openconfig_aaa_aaa_authentication_login sampleClient " local " none).calls =
      [RestCall.patch (aaa_path (some "authentication/config"))
        ⟨"openconfig-system:config", "authentication-method", BodyVal.strs [" local "]⟩] ∧
    pyStrip " local " ∉ methods_to_list (some " local ") none :=
  ⟨by decide, by decide,
    (c10_builder_preserves_whitespace sampleClient " local " (by decide)).1,
    (c10_builder_preserves_whitespace sampleClient " local " (by decide)).2.1,
    (c10_builder_preserves_whitespace sampleClient " local " (by decide)).2.2 (by decide)⟩

end SonicAaa
